import Mathlib

/-!
Shallow embedding of the classroom-backend repository's domain logic:
the enrollment-admission handler (POST /api/enrollments), the class-creation
handler with its invite-code retry loop (POST /api/classes), and the
capacity-status analytics categorization (GET /api/analytics/capacity-status).

Each definition is translated directly from the TypeScript source:
  - `admit` from the POST / enrollment handler in the enrollments route file,
  - `createClass` / `allocLoopAux` from the second POST / handler in
    src/routes/classes.ts (lines 244-296),
  - `generateInviteCode` from the arrow function at classes.ts lines 254-256,
  - `categorize` from the GET /capacity-status handler in the analytics
    route file (lines 110-124).
-/

namespace Classroom

/-- A row of the `classes` table, with the columns the handlers touch. -/
structure ClassRow where
  id : Nat
  subjectId : Nat
  teacherId : String
  name : String
  description : Option String
  capacity : Nat
  status : String
  bannerUrl : Option String
  bannerCldPubId : Option String
  schedules : List String
  inviteCode : String
  deriving Repr, DecidableEq

/-- A row of the `enrollments` table. -/
structure Enrollment where
  id : Nat
  studentId : String
  classId : Nat
  deriving Repr, DecidableEq

/-- The relational store as the handlers see it: the three tables plus the
serial id sequences that `returning({id})` draws from. -/
structure Store where
  classes : List ClassRow
  users : List String
  enrollments : List Enrollment
  nextEnrollmentId : Nat
  nextClassId : Nat
  deriving Repr, DecidableEq

/-- `select ... from classes where eq(classes.id, classId)` destructured to
its first row. -/
def getClassInfo (s : Store) (classId : Nat) : Option ClassRow :=
  s.classes.find? (fun c => c.id == classId)

/-- `select count(*) from enrollments where eq(enrollments.classId, classId)`. -/
def countEnrollments (s : Store) (classId : Nat) : Nat :=
  (s.enrollments.filter (fun e => e.classId == classId)).length

/-- `select id from user where eq(user.id, studentId)` viewed as existence. -/
def userExists (s : Store) (studentId : String) : Bool :=
  s.users.contains studentId

/-- `select id from enrollments where and(eq(studentId), eq(classId))`
destructured to its first row. -/
def findEnrollment (s : Store) (studentId : String) (classId : Nat) :
    Option Enrollment :=
  s.enrollments.find? (fun e => e.studentId == studentId && e.classId == classId)

/-- `insert into enrollments values({studentId, classId}) returning id`:
appends a fresh row and returns its serial identifier. -/
def insertEnrollment (s : Store) (studentId : String) (classId : Nat) :
    Nat × Store :=
  let i := s.nextEnrollmentId
  (i, { s with
        enrollments := s.enrollments ++ [⟨i, studentId, classId⟩],
        nextEnrollmentId := i + 1 })

/-- The outcomes of the POST /api/enrollments handler: the 400 validation
response, the five business-rule 400 responses in source order, and the 500
catch-all for a throwing store operation. `CapacityExceeded` carries the
capacity number interpolated into the response detail string. -/
inductive AdmitError where
  | MissingFields
  | InvalidClass
  | ClassNotOpen
  | CapacityExceeded (capacity : Nat)
  | InvalidStudent
  | DuplicateEnrollment
  | StorageUnavailable
  deriving Repr, DecidableEq

/-- The `details` string of the capacity-exceeded response:
`This class has reached its capacity of ${capacity} students.` -/
def admitErrorDetail : AdmitError → Option String
  | .CapacityExceeded cap =>
      some ("This class has reached its capacity of " ++ toString cap ++ " students.")
  | _ => none

/-- Which awaited store operations throw, modelling the try/catch: any store
call may fail, and a failure lands in the catch block as a 500. -/
structure FailSpec where
  classLookupFails : Bool
  countFails : Bool
  userLookupFails : Bool
  findFails : Bool
  insertFails : Bool
  deriving Repr, DecidableEq

/-- The spec where every store operation succeeds. -/
def noFail : FailSpec := ⟨false, false, false, false, false⟩

/-- The POST /api/enrollments handler body. Mirrors the source line by line:
falsy-field validation, class lookup, status check, capacity count, student
lookup, duplicate check, single-row insert; a throwing store call at any of
those points drops to the catch block (`StorageUnavailable`) leaving the
store untouched. Returns the response together with the post-call store. -/
def admitStudent (f : FailSpec) (studentId : String) (classId : Nat) (s : Store) :
    Except AdmitError Nat × Store :=
  if studentId = "" ∨ classId = 0 then (.error .MissingFields, s)
  else if f.classLookupFails then (.error .StorageUnavailable, s)
  else
    match getClassInfo s classId with
    | none => (.error .InvalidClass, s)
    | some classInfo =>
      if classInfo.status ≠ "active" then (.error .ClassNotOpen, s)
      else if f.countFails then (.error .StorageUnavailable, s)
      else if countEnrollments s classId ≥ classInfo.capacity then
        (.error (.CapacityExceeded classInfo.capacity), s)
      else if f.userLookupFails then (.error .StorageUnavailable, s)
      else if ¬ userExists s studentId then (.error .InvalidStudent, s)
      else if f.findFails then (.error .StorageUnavailable, s)
      else
        match findEnrollment s studentId classId with
        | some _ => (.error .DuplicateEnrollment, s)
        | none =>
          if f.insertFails then (.error .StorageUnavailable, s)
          else
            let (i, s') := insertEnrollment s studentId classId
            (.ok i, s')

/-- At most one enrollment row per (studentId, classId) pair. -/
def pairUnique (s : Store) : Prop :=
  s.enrollments.Pairwise
    (fun a b => a.studentId ≠ b.studentId ∨ a.classId ≠ b.classId)

instance (s : Store) : Decidable (pairUnique s) := by
  unfold pairUnique; infer_instance

/-! ## Class creation (src/routes/classes.ts, POST /, lines 244-296) -/

/-- The base-36 digit characters JavaScript's `Number.toString(36)` emits:
`0`-`9` then `a`-`z`. -/
def base36Char (d : Nat) : Char :=
  if d < 10 then Char.ofNat (48 + d) else Char.ofNat (97 + (d - 10))

/-- `generateInviteCode` at classes.ts lines 254-256:
`Math.random().toString(36).substring(2, 8).toUpperCase()`.
A value of `Math.random()` in [0, 1) prints in base 36 as `"0."` followed by
its significant fractional digits (none for zero, no trailing zeros);
`digits` is that digit list. `substring(2, 8)` drops the `"0."` prefix and
keeps at most six characters; `toUpperCase` upcases them. -/
def generateInviteCode (digits : List Nat) : String :=
  String.mk
    (((("0." ++ String.mk (digits.map base36Char)).toList).drop 2).take 6
      |>.map Char.toUpper)

/-- `select id from classes where eq(classes.inviteCode, code)` viewed as
existence: the retry loop's collision probe. -/
def codeTaken (s : Store) (code : String) : Bool :=
  s.classes.any (fun c => c.inviteCode == code)

/-- The `while (attempts < 10)` retry loop. `gen k` is the code returned by
the k-th call of `generateInviteCode` (the loop body regenerates and
increments `attempts` in lockstep, so on loop entry the current code is
`gen attempts`); `fuel` is `10 - attempts`. With fuel left the loop probes
the current code, breaking on a free one; with the budget exhausted the loop
condition fails and the handler keeps the current, never-probed code. -/
def allocLoopAux (s : Store) (gen : Nat → String) : Nat → Nat → String
  | 0, k => gen k
  | fuel + 1, k => if codeTaken s (gen k) then allocLoopAux s gen fuel (k + 1) else gen k

/-- The invite code the handler commits: the retry loop started with
`inviteCode = generateInviteCode()` and `attempts = 0`. -/
def allocatedCode (s : Store) (gen : Nat → String) : String :=
  allocLoopAux s gen 10 0

/-- Body of the POST /api/classes request (second handler variant). -/
structure CreateClassReq where
  subjectId : Nat
  teacherId : String
  name : String
  description : Option String
  capacity : Option Nat
  status : Option String
  bannerUrl : Option String
  bannerCldPubId : Option String
  schedules : Option (List String)
  deriving Repr, DecidableEq

/-- Outcomes of the class-creation handler: the 400 for falsy required
fields, or the created id. The handler has no other failure path — after
the retry loop it always inserts. -/
inductive CreateError where
  | MissingFields
  deriving Repr, DecidableEq

/-- The row the class-creation insert writes: the request fields with
`capacity ?? 50`, `status ?? "active"`, `schedules ?? []`, and the invite
code produced by the retry loop. -/
def newClassRow (gen : Nat → String) (req : CreateClassReq) (s : Store) :
    ClassRow :=
  { id := s.nextClassId
    subjectId := req.subjectId
    teacherId := req.teacherId
    name := req.name
    description := req.description
    capacity := req.capacity.getD 50
    status := req.status.getD "active"
    bannerUrl := req.bannerUrl
    bannerCldPubId := req.bannerCldPubId
    schedules := req.schedules.getD []
    inviteCode := allocatedCode s gen }

/-- The POST /api/classes handler (classes.ts lines 244-296): validate the
three required fields, run the invite-code retry loop, then insert the row
and return the new id. -/
def createClass (gen : Nat → String) (req : CreateClassReq) (s : Store) :
    Except CreateError Nat × Store :=
  if req.subjectId = 0 ∨ req.teacherId = "" ∨ req.name = "" then
    (.error .MissingFields, s)
  else
    (.ok s.nextClassId,
      { s with classes := s.classes ++ [newClassRow gen req s],
               nextClassId := s.nextClassId + 1 })

/-- The invite-code uniqueness invariant: no two class rows hold the same
code. -/
def uniqueCodes (s : Store) : Prop :=
  s.classes.Pairwise (fun a b => a.inviteCode ≠ b.inviteCode)

instance (s : Store) : Decidable (uniqueCodes s) := by
  unfold uniqueCodes; infer_instance

/-! ## Capacity-status analytics (analytics route, GET /capacity-status) -/

/-- One row of the grouped capacity-status query: a class's capacity with
its enrollment count. -/
structure CapacityItem where
  enrollmentCount : Nat
  capacity : Nat
  deriving Repr, DecidableEq

/-- The four buckets of the categorization loop. -/
inductive Category where
  | available
  | nearFull
  | almostFull
  | full
  deriving Repr, DecidableEq

/-- `(item.enrollmentCount / item.capacity) * 100`, over exact rationals. -/
def utilization (it : CapacityItem) : ℚ :=
  (it.enrollmentCount : ℚ) / (it.capacity : ℚ) * 100

/-- The if/else-if chain of the categorization loop. -/
def categorize (it : CapacityItem) : Category :=
  if utilization it ≥ 100 then .full
  else if utilization it ≥ 90 then .almostFull
  else if utilization it ≥ 70 then .nearFull
  else .available

/-- The running counters the `forEach` accumulates: how many items land in
each bucket. -/
def categoryCount (l : List CapacityItem) (c : Category) : Nat :=
  (l.filter (fun it => categorize it == c)).length

/-! ## Concrete fixtures used by the witness theorems -/

/-- A class row with the fields the admission handler reads set explicitly. -/
def demoClass (i : Nat) (code : String) (cap : Nat) (st : String) : ClassRow :=
  { id := i, subjectId := 1, teacherId := "t1", name := "Algebra",
    description := none, capacity := cap, status := st, bannerUrl := none,
    bannerCldPubId := none, schedules := [], inviteCode := code }

/-- A store with an active full class (7), an inactive at-capacity class (8),
and an active class with free seats (9) in which `s1` is already enrolled. -/
def demoStore : Store :=
  { classes := [demoClass 7 "C7CODE" 2 "active", demoClass 8 "C8CODE" 0 "inactive",
                demoClass 9 "C9CODE" 5 "active"],
    users := ["s1", "s2", "s3"],
    enrollments := [⟨1, "s2", 7⟩, ⟨2, "s3", 7⟩, ⟨3, "s1", 9⟩],
    nextEnrollmentId := 4, nextClassId := 10 }

/-- A store whose one class (7, active, capacity 1) has a single free seat. -/
def lastSeatStore : Store :=
  { classes := [demoClass 7 "Q1CODE" 1 "active"], users := ["s1"],
    enrollments := [], nextEnrollmentId := 1, nextClassId := 8 }

/-- A store whose one class (7, active, capacity 2) has two free seats. -/
def freeStore : Store :=
  { classes := [demoClass 7 "Q2CODE" 2 "active"], users := ["s1"],
    enrollments := [], nextEnrollmentId := 1, nextClassId := 8 }

end Classroom

namespace Classroom

/-! ## C3, C4 — admission order of checks and capacity check -/

/-- C3: the five admission checks run in source order — class existence,
class status, capacity count, student existence, duplicate enrollment — each
short-circuiting on failure. A missing class yields `InvalidClass` whatever
the rest of the store holds; an inactive class yields `ClassNotOpen` even
when also at capacity; `CapacityExceeded` requires only the first two checks
to have passed; `InvalidStudent` requires the first three; and
`DuplicateEnrollment` requires the first four. -/
theorem admit_check_order (s : Store) (sid : String) (cid : Nat)
    (hsid : sid ≠ "") (hcid : cid ≠ 0) :
    (getClassInfo s cid = none →
      (admitStudent noFail sid cid s).1 = .error .InvalidClass)
    ∧ (∀ c, getClassInfo s cid = some c → c.status ≠ "active" →
      (admitStudent noFail sid cid s).1 = .error .ClassNotOpen)
    ∧ (∀ c, getClassInfo s cid = some c → c.status = "active" →
      countEnrollments s cid ≥ c.capacity →
      (admitStudent noFail sid cid s).1 = .error (.CapacityExceeded c.capacity))
    ∧ (∀ c, getClassInfo s cid = some c → c.status = "active" →
      countEnrollments s cid < c.capacity → userExists s sid = false →
      (admitStudent noFail sid cid s).1 = .error .InvalidStudent)
    ∧ (∀ c e, getClassInfo s cid = some c → c.status = "active" →
      countEnrollments s cid < c.capacity → userExists s sid = true →
      findEnrollment s sid cid = some e →
      (admitStudent noFail sid cid s).1 = .error .DuplicateEnrollment) := by
  refine ⟨?_, ?_, ?_, ?_, ?_⟩ <;> intros <;>
    simp_all [admitStudent, noFail, Nat.not_lt_of_lt, Nat.not_le_of_lt]

/-- Witness for C3 at the concrete `demoStore`: class 999 is absent; class 8
is inactive and at capacity yet reports `ClassNotOpen`; class 7 is full;
student `s4` does not exist; `s1` is already enrolled in class 9. -/
theorem admit_check_order_witness :
    (admitStudent noFail "s1" 999 demoStore).1 = .error .InvalidClass
    ∧ (admitStudent noFail "s1" 8 demoStore).1 = .error .ClassNotOpen
    ∧ (admitStudent noFail "s1" 7 demoStore).1 = .error (.CapacityExceeded 2)
    ∧ (admitStudent noFail "s4" 9 demoStore).1 = .error .InvalidStudent
    ∧ (admitStudent noFail "s1" 9 demoStore).1 = .error .DuplicateEnrollment :=
  ⟨(admit_check_order demoStore "s1" 999 (by decide) (by decide)).1 rfl,
   (admit_check_order demoStore "s1" 8 (by decide) (by decide)).2.1
     (demoClass 8 "C8CODE" 0 "inactive") rfl (by decide),
   (admit_check_order demoStore "s1" 7 (by decide) (by decide)).2.2.1
     (demoClass 7 "C7CODE" 2 "active") rfl rfl (by decide),
   (admit_check_order demoStore "s4" 9 (by decide) (by decide)).2.2.2.1
     (demoClass 9 "C9CODE" 5 "active") rfl rfl (by decide) (by decide),
   (admit_check_order demoStore "s1" 9 (by decide) (by decide)).2.2.2.2
     (demoClass 9 "C9CODE" 5 "active") ⟨3, "s1", 9⟩ rfl rfl (by decide)
     (by decide) rfl⟩

/-- C4: for an existing active class, when the enrollment count has reached
the capacity the handler answers `CapacityExceeded` carrying exactly the
class's capacity value, whose response detail interpolates that number;
below capacity the capacity check never fires. -/
theorem admit_capacity (s : Store) (sid : String) (cid : Nat) (c : ClassRow)
    (hsid : sid ≠ "") (hcid : cid ≠ 0)
    (hc : getClassInfo s cid = some c) (hst : c.status = "active") :
    (countEnrollments s cid ≥ c.capacity →
      (admitStudent noFail sid cid s).1 = .error (.CapacityExceeded c.capacity)
      ∧ admitErrorDetail (.CapacityExceeded c.capacity) =
        some ("This class has reached its capacity of "
          ++ toString c.capacity ++ " students."))
    ∧ (countEnrollments s cid < c.capacity →
      ∀ n, (admitStudent noFail sid cid s).1 ≠ .error (.CapacityExceeded n)) := by
  constructor
  · intro hge
    refine ⟨?_, rfl⟩
    simp_all [admitStudent, noFail]
  · intro hlt n
    have hnle : ¬ c.capacity ≤ countEnrollments s cid := Nat.not_le.mpr hlt
    by_cases hu : userExists s sid
    · cases hf : findEnrollment s sid cid <;>
        simp [admitStudent, noFail, hsid, hcid, hc, hst, hnle, hu, hf, insertEnrollment]
    · simp [admitStudent, noFail, hsid, hcid, hc, hst, hnle, hu]

/-- Witness for C4: in `demoStore`, class 7 has capacity 2 and two
enrollments, so admitting `s1` answers `CapacityExceeded 2` with the
capacity value in the detail string; in `freeStore`, class 7 has free seats
and no `CapacityExceeded` answer is possible. -/
theorem admit_capacity_witness :
    ((admitStudent noFail "s1" 7 demoStore).1 = .error (.CapacityExceeded 2)
      ∧ admitErrorDetail (.CapacityExceeded 2) =
        some "This class has reached its capacity of 2 students.")
    ∧ ∀ n, (admitStudent noFail "s1" 7 freeStore).1 ≠ .error (.CapacityExceeded n) :=
  ⟨(admit_capacity demoStore "s1" 7 (demoClass 7 "C7CODE" 2 "active")
      (by decide) (by decide) rfl rfl).1 (by decide),
   (admit_capacity freeStore "s1" 7 (demoClass 7 "Q2CODE" 2 "active")
      (by decide) (by decide) rfl rfl).2 (by decide)⟩

/-! ## Effect of the single-row insert on the store queries -/

lemma getClassInfo_insert (s : Store) (sid : String) (cid cid' : Nat) :
    getClassInfo (insertEnrollment s sid cid).2 cid' = getClassInfo s cid' :=
  rfl

lemma userExists_insert (s : Store) (sid sid' : String) (cid : Nat) :
    userExists (insertEnrollment s sid cid).2 sid' = userExists s sid' :=
  rfl

lemma countEnrollments_insert_same (s : Store) (sid : String) (cid : Nat) :
    countEnrollments (insertEnrollment s sid cid).2 cid
      = countEnrollments s cid + 1 := by
  simp [countEnrollments, insertEnrollment, List.filter_append]

lemma findEnrollment_insert (s : Store) (sid : String) (cid : Nat)
    (h : findEnrollment s sid cid = none) :
    findEnrollment (insertEnrollment s sid cid).2 sid cid
      = some ⟨s.nextEnrollmentId, sid, cid⟩ := by
  have henr : (insertEnrollment s sid cid).2.enrollments
      = s.enrollments ++ [⟨s.nextEnrollmentId, sid, cid⟩] := rfl
  unfold findEnrollment at h ⊢
  rw [henr, List.find?_append, h]
  simp

/-- `findEnrollment = none` says every stored row differs from the pair in
student or class. -/
lemma findEnrollment_none_iff (s : Store) (sid : String) (cid : Nat) :
    findEnrollment s sid cid = none
      ↔ ∀ e ∈ s.enrollments, e.studentId ≠ sid ∨ e.classId ≠ cid := by
  simp only [findEnrollment, List.find?_eq_none, Bool.and_eq_true, beq_iff_eq,
    not_and_or]

/-! ## C5 — duplicate enrollment and safe retry -/

/-- C5 counterexample: in `lastSeatStore` class 7 is active with free
capacity (capacity 1, no enrollments) and `s1` is a valid student, yet after
a first successful admit the retried identical admit answers
`CapacityExceeded 1`, not `DuplicateEnrollment` — the capacity check runs
before the duplicate check and the first admit filled the last seat. -/
theorem admit_retry_lastSeat_counterexample :
    countEnrollments lastSeatStore 7 < 1
    ∧ (admitStudent noFail "s1" 7 lastSeatStore).1 = .ok 1
    ∧ (admitStudent noFail "s1" 7 (admitStudent noFail "s1" 7 lastSeatStore).2).1
        = .error (.CapacityExceeded 1)
    ∧ (admitStudent noFail "s1" 7 (admitStudent noFail "s1" 7 lastSeatStore).2).1
        ≠ .error .DuplicateEnrollment := by
  refine ⟨by decide, rfl, rfl, ?_⟩
  rw [show (admitStudent noFail "s1" 7 (admitStudent noFail "s1" 7 lastSeatStore).2).1
      = .error (.CapacityExceeded 1) from rfl]
  simp

/-- C5 (amended): against a valid active class that keeps a free seat even
after the first admit (count + 1 < capacity), the first admit succeeds with
the fresh identifier, the retried admit answers `DuplicateEnrollment` and
leaves the store unchanged, and pair-uniqueness of enrollments is preserved
by both calls. -/
theorem admit_retry (s : Store) (sid : String) (cid : Nat) (c : ClassRow)
    (hsid : sid ≠ "") (hcid : cid ≠ 0)
    (hc : getClassInfo s cid = some c) (hst : c.status = "active")
    (hcap : countEnrollments s cid + 1 < c.capacity)
    (hu : userExists s sid = true) (hf : findEnrollment s sid cid = none) :
    (admitStudent noFail sid cid s).1 = .ok s.nextEnrollmentId
    ∧ (admitStudent noFail sid cid (admitStudent noFail sid cid s).2).1
        = .error .DuplicateEnrollment
    ∧ (admitStudent noFail sid cid (admitStudent noFail sid cid s).2).2
        = (admitStudent noFail sid cid s).2
    ∧ (pairUnique s → pairUnique (admitStudent noFail sid cid s).2
        ∧ pairUnique (admitStudent noFail sid cid (admitStudent noFail sid cid s).2).2) := by
  have hnle : ¬ c.capacity ≤ countEnrollments s cid := by omega
  have h1 : admitStudent noFail sid cid s
      = (.ok s.nextEnrollmentId, (insertEnrollment s sid cid).2) := by
    simp only [admitStudent, noFail]
    simp [hsid, hcid, hc, hst, hnle, hu, hf, insertEnrollment]
  have hc' : getClassInfo (insertEnrollment s sid cid).2 cid = some c := hc
  have hcount' := countEnrollments_insert_same s sid cid
  have hnle' : ¬ c.capacity
      ≤ countEnrollments (insertEnrollment s sid cid).2 cid := by omega
  have hu' : userExists (insertEnrollment s sid cid).2 sid = true := hu
  have hfind' := findEnrollment_insert s sid cid hf
  have h2 : admitStudent noFail sid cid (insertEnrollment s sid cid).2
      = (.error .DuplicateEnrollment, (insertEnrollment s sid cid).2) := by
    simp [admitStudent, noFail, hsid, hcid, hc', hst, hnle', hu', hfind']
  have hpu : pairUnique s → pairUnique (insertEnrollment s sid cid).2 := by
    intro hp
    unfold pairUnique at hp ⊢
    simp only [insertEnrollment]
    rw [List.pairwise_append]
    refine ⟨hp, by simp, ?_⟩
    intro a ha b hb
    simp only [List.mem_singleton] at hb
    subst hb
    exact (findEnrollment_none_iff s sid cid).mp hf a ha
  rw [h1]
  exact ⟨rfl, by rw [h2], by rw [h2], fun hp => ⟨hpu hp, by rw [h2]; exact hpu hp⟩⟩

/-- Witness for C5 at `freeStore` (capacity 2, empty): first admit of
(`s1`, 7) returns id 1, the retry answers `DuplicateEnrollment` without
changing the store, and pair-uniqueness is preserved. -/
theorem admit_retry_witness :
    (admitStudent noFail "s1" 7 freeStore).1 = .ok freeStore.nextEnrollmentId
    ∧ (admitStudent noFail "s1" 7 (admitStudent noFail "s1" 7 freeStore).2).1
        = .error .DuplicateEnrollment
    ∧ (admitStudent noFail "s1" 7 (admitStudent noFail "s1" 7 freeStore).2).2
        = (admitStudent noFail "s1" 7 freeStore).2
    ∧ (pairUnique freeStore → pairUnique (admitStudent noFail "s1" 7 freeStore).2
        ∧ pairUnique (admitStudent noFail "s1" 7 (admitStudent noFail "s1" 7 freeStore).2).2) :=
  admit_retry freeStore "s1" 7 (demoClass 7 "Q2CODE" 2 "active")
    (by decide) (by decide) rfl rfl (by decide) (by decide) rfl

/-! ## C6 — atomicity on storage failure -/

/-- Every branch of the handler either leaves the store as it was or is the
successful single-row insert. -/
lemma admit_state_cases (f : FailSpec) (sid : String) (cid : Nat) (s : Store) :
    (admitStudent f sid cid s).2 = s
    ∨ admitStudent f sid cid s
        = (.ok s.nextEnrollmentId, (insertEnrollment s sid cid).2) := by
  unfold admitStudent
  simp only [insertEnrollment]
  repeat' split
  all_goals simp [insertEnrollment]

/-- C6: a failed admit commits nothing — whatever error comes back (including
`StorageUnavailable` from a throwing store call), the post-call store equals
the pre-call store; and on a request that would otherwise succeed, a throw
from any of the five store operations surfaces as `StorageUnavailable`. -/
theorem admit_atomic (f : FailSpec) (sid : String) (cid : Nat) (s : Store) :
    (∀ e, (admitStudent f sid cid s).1 = .error e → (admitStudent f sid cid s).2 = s)
    ∧ (∀ c, sid ≠ "" → cid ≠ 0 → getClassInfo s cid = some c →
        c.status = "active" → countEnrollments s cid < c.capacity →
        userExists s sid = true → findEnrollment s sid cid = none →
        f ≠ noFail → (admitStudent f sid cid s).1 = .error .StorageUnavailable) := by
  constructor
  · intro e he
    rcases admit_state_cases f sid cid s with h | h
    · exact h
    · rw [h] at he
      simp at he
  · intro c hsid hcid hc hst hlt hu hf hne
    have hnle : ¬ c.capacity ≤ countEnrollments s cid := Nat.not_le.mpr hlt
    obtain ⟨f1, f2, f3, f4, f5⟩ := f
    cases f1 <;> cases f2 <;> cases f3 <;> cases f4 <;> cases f5 <;>
      simp_all [admitStudent, noFail] <;>
      simp [Nat.not_le.mpr hlt]

/-- Witness for C6: with the class-lookup call throwing, admitting into the
otherwise admissible `freeStore` answers `StorageUnavailable` and leaves the
store exactly as it was. -/
theorem admit_atomic_witness :
    (admitStudent ⟨true, false, false, false, false⟩ "s1" 7 freeStore).1
        = .error .StorageUnavailable
    ∧ (admitStudent ⟨true, false, false, false, false⟩ "s1" 7 freeStore).2
        = freeStore := by
  have h := admit_atomic ⟨true, false, false, false, false⟩ "s1" 7 freeStore
  have h2 := h.2 (demoClass 7 "Q2CODE" 2 "active") (by decide) (by decide)
    rfl rfl (by decide) (by decide) rfl (by decide)
  exact ⟨h2, h.1 .StorageUnavailable h2⟩

/-! ## C7 — round-trip through findEnrollment -/

/-- Inversion of a successful admit: the identifier is the store's next
serial, the post store is the single-row insert, and no enrollment for the
pair pre-existed. -/
lemma admit_ok_inv (f : FailSpec) (sid : String) (cid : Nat) (s : Store)
    (i : Nat) (s' : Store) (h : admitStudent f sid cid s = (.ok i, s')) :
    i = s.nextEnrollmentId ∧ s' = (insertEnrollment s sid cid).2
    ∧ findEnrollment s sid cid = none := by
  unfold admitStudent at h
  simp only [insertEnrollment] at h
  repeat' split at h
  all_goals rw [Prod.mk.injEq] at h
  all_goals first
    | exact Except.noConfusion h.1
    | exact ⟨(Except.ok.inj h.1).symm, h.2.symm, by assumption⟩

/-- C7: a successful admit returning identifier `i` leaves a store in which
`findEnrollment` on the same (studentId, classId) pair answers the inserted
record, whose identifier is exactly `i`. -/
theorem admit_findEnrollment_roundtrip (sid : String) (cid : Nat) (s : Store)
    (i : Nat) (s' : Store) (h : admitStudent noFail sid cid s = (.ok i, s')) :
    findEnrollment s' sid cid = some ⟨i, sid, cid⟩ := by
  obtain ⟨hi, hs', hf⟩ := admit_ok_inv noFail sid cid s i s' h
  subst hi
  subst hs'
  exact findEnrollment_insert s sid cid hf

/-- Witness for C7: admitting `s1` into class 7 of `freeStore` returns id 1
and `findEnrollment` then answers the record with id 1. -/
theorem admit_findEnrollment_roundtrip_witness :
    findEnrollment (admitStudent noFail "s1" 7 freeStore).2 "s1" 7
      = some ⟨1, "s1", 7⟩ :=
  admit_findEnrollment_roundtrip "s1" 7 freeStore 1
    (admitStudent noFail "s1" 7 freeStore).2 rfl

/-! ## C1, C2 — invite-code allocation -/

/-- A store holding one class whose invite code is `ABCDEF`. -/
def takenStore : Store :=
  { classes := [demoClass 1 "ABCDEF" 50 "active"], users := [],
    enrollments := [], nextEnrollmentId := 1, nextClassId := 2 }

/-- A code generator every candidate of which is already taken in
`takenStore`. -/
def allTakenGen : Nat → String := fun _ => "ABCDEF"

/-- A code generator whose first candidate collides in `takenStore` and
whose second is free. -/
def retryGen : Nat → String := fun k => if k == 0 then "ABCDEF" else "XYZ123"

/-- A creation request leaving capacity, status and schedules unset. -/
def demoReq : CreateClassReq :=
  { subjectId := 1, teacherId := "t1", name := "Biology",
    description := none, capacity := none, status := none,
    bannerUrl := none, bannerCldPubId := none, schedules := none }

/-- `codeTaken = false` says every class row holds a different code. -/
lemma codeTaken_false_iff (s : Store) (code : String) :
    codeTaken s code = false ↔ ∀ c ∈ s.classes, c.inviteCode ≠ code := by
  simp [codeTaken]

/-- If some candidate probed by the remaining iterations is free, the loop
returns a code it verified free (it breaks at the first free probe). -/
lemma allocLoopAux_free (s : Store) (gen : Nat → String) :
    ∀ fuel k j, k ≤ j → j < k + fuel → codeTaken s (gen j) = false →
      codeTaken s (allocLoopAux s gen fuel k) = false := by
  intro fuel
  induction fuel with
  | zero =>
    intro k j h1 h2 _
    omega
  | succ n ih =>
    intro k j h1 h2 hj
    cases hk : codeTaken s (gen k) with
    | false => simp [allocLoopAux, hk]
    | true =>
      simp only [allocLoopAux, hk, if_true]
      have hkj : k + 1 ≤ j := by
        rcases Nat.eq_or_lt_of_le h1 with he | hl
        · exfalso
          subst he
          rw [hj] at hk
          cases hk
        · omega
      exact ih (k + 1) j hkj (by omega) hj

/-- C1 counterexample: `takenStore` has pairwise-distinct invite codes, yet
one class creation — against a generator all of whose candidates are taken,
exhausting the ten probes — completes successfully and leaves two class rows
with the same invite code `ABCDEF`. -/
theorem inviteCode_uniqueness_counterexample :
    uniqueCodes takenStore
    ∧ (createClass allTakenGen demoReq takenStore).1 = .ok 2
    ∧ ¬ uniqueCodes (createClass allTakenGen demoReq takenStore).2 :=
  ⟨by decide, rfl, by decide⟩

/-- C1 (amended): whenever at least one of the ten probed candidates is
free in the current store — i.e. the retry loop exits through its `break` —
class creation commits a code that differs from every existing class's code,
so distinctness of invite codes is preserved; only the exhaustion path (all
ten probes taken) can commit a colliding, never-verified code. -/
theorem createClass_preserves_uniqueCodes (gen : Nat → String)
    (req : CreateClassReq) (s : Store)
    (hfree : ∃ k, k < 10 ∧ codeTaken s (gen k) = false)
    (huniq : uniqueCodes s) :
    uniqueCodes (createClass gen req s).2 := by
  obtain ⟨k, hk10, hkfree⟩ := hfree
  have hfree' : codeTaken s (allocatedCode s gen) = false :=
    allocLoopAux_free s gen 10 0 k (Nat.zero_le k) (by omega) hkfree
  unfold createClass
  split
  · exact huniq
  · show uniqueCodes
      { s with classes := s.classes ++ [newClassRow gen req s],
               nextClassId := s.nextClassId + 1 }
    unfold uniqueCodes
    show (s.classes ++ [newClassRow gen req s]).Pairwise _
    rw [List.pairwise_append]
    refine ⟨huniq, by simp, ?_⟩
    intro a ha b hb
    simp only [List.mem_singleton] at hb
    subst hb
    exact (codeTaken_false_iff s (allocatedCode s gen)).mp hfree' a ha

/-- Witness for C1: with `retryGen`, whose second candidate `XYZ123` is free
in `takenStore`, the created store still has pairwise-distinct codes. -/
theorem createClass_preserves_uniqueCodes_witness :
    uniqueCodes (createClass retryGen demoReq takenStore).2 :=
  createClass_preserves_uniqueCodes retryGen demoReq takenStore
    ⟨1, by decide, by decide⟩ (by decide)

/-- C2, evaluated at the failing input: in `takenStore` every candidate the
generator yields is already taken, so the loop probes ten candidates in
vain; the handler then does not fail — there is no exhaustion error in the
code — but returns success, inserting the eleventh, never-probed candidate,
which here collides with the existing class. -/
theorem createClass_exhaustion_inserts_unchecked :
    (∀ k, allTakenGen k = "ABCDEF")
    ∧ codeTaken takenStore "ABCDEF" = true
    ∧ (createClass allTakenGen demoReq takenStore).1 = .ok 2
    ∧ ((createClass allTakenGen demoReq takenStore).2.classes.filter
        (fun c => c.inviteCode == "ABCDEF")).length = 2 :=
  ⟨fun _ => rfl, by decide, rfl, by decide⟩

/-! ## C8 — invite-code format -/

/-- The generator pipeline, with the string plumbing computed away: upcase
the first six base-36 fractional digits. -/
lemma generateInviteCode_eq (digits : List Nat) :
    generateInviteCode digits
      = String.mk (((digits.map base36Char).take 6).map Char.toUpper) := rfl

/-- Each upcased base-36 digit character is a decimal digit or an uppercase
letter, hence alphanumeric in a single fixed case. -/
lemma base36Char_upper_ok : ∀ d, d < 36 →
    ((('0' ≤ Char.toUpper (base36Char d) ∧ Char.toUpper (base36Char d) ≤ '9')
      ∨ ('A' ≤ Char.toUpper (base36Char d)
          ∧ Char.toUpper (base36Char d) ≤ 'Z'))
      ∧ (Char.toUpper (base36Char d)).isAlphanum = true) := by
  decide

/-- C8 counterexample: `Math.random() = 0.5` prints in base 36 as `"0.i"`
(one significant fractional digit, the digit 18), so the generator yields
the one-character code `"I"`, while a six-digit expansion yields six
characters — the generator's outputs do not share one fixed length. -/
theorem generateInviteCode_length_counterexample :
    (generateInviteCode [18]).length = 1
    ∧ (generateInviteCode [1, 2, 3, 4, 5, 6]).length = 6
    ∧ (generateInviteCode [18]).length
        ≠ (generateInviteCode [1, 2, 3, 4, 5, 6]).length :=
  ⟨by decide, by decide, by decide⟩

/-- C8 (amended): a generated code has at most six characters — exactly six
when the random value's base-36 expansion has at least six significant
fractional digits, fewer otherwise — and every character is a decimal digit
or an uppercase letter (alphanumeric, single fixed case). -/
theorem generateInviteCode_format (digits : List Nat)
    (h : ∀ d ∈ digits, d < 36) :
    (generateInviteCode digits).length = min 6 digits.length
    ∧ ∀ ch ∈ (generateInviteCode digits).toList,
        ((('0' ≤ ch ∧ ch ≤ '9') ∨ ('A' ≤ ch ∧ ch ≤ 'Z'))
          ∧ ch.isAlphanum = true) := by
  rw [generateInviteCode_eq]
  constructor
  · show (((digits.map base36Char).take 6).map Char.toUpper).length
        = min 6 digits.length
    rw [List.length_map, List.length_take, List.length_map]
  · intro ch hch
    have hch' : ch ∈ ((digits.map base36Char).take 6).map Char.toUpper := hch
    obtain ⟨c0, hc0, rfl⟩ := List.mem_map.mp hch'
    have hc0' : c0 ∈ digits.map base36Char := List.take_subset 6 _ hc0
    obtain ⟨d, hd, rfl⟩ := List.mem_map.mp hc0'
    exact base36Char_upper_ok d (h d hd)

/-- Witness for C8 at the seven-digit expansion `[0, 35, 9, 10, 18, 2, 7]`:
a six-character code whose characters are all digits or uppercase letters. -/
theorem generateInviteCode_format_witness :
    (generateInviteCode [0, 35, 9, 10, 18, 2, 7]).length = min 6 7
    ∧ ∀ ch ∈ (generateInviteCode [0, 35, 9, 10, 18, 2, 7]).toList,
        ((('0' ≤ ch ∧ ch ≤ '9') ∨ ('A' ≤ ch ∧ ch ≤ 'Z'))
          ∧ ch.isAlphanum = true) :=
  generateInviteCode_format [0, 35, 9, 10, 18, 2, 7] (by decide)

/-! ## C9 — class-creation defaults -/

/-- C9: a valid creation request yields the next class id, appends exactly
one row, and that row's capacity, status and schedules are the request's
values when supplied and `50`, `"active"`, `[]` when omitted. -/
theorem createClass_defaults (gen : Nat → String) (req : CreateClassReq)
    (s : Store) (h1 : req.subjectId ≠ 0) (h2 : req.teacherId ≠ "")
    (h3 : req.name ≠ "") :
    (createClass gen req s).1 = .ok s.nextClassId
    ∧ (createClass gen req s).2.classes = s.classes ++ [newClassRow gen req s]
    ∧ (newClassRow gen req s).capacity = req.capacity.getD 50
    ∧ (newClassRow gen req s).status = req.status.getD "active"
    ∧ (newClassRow gen req s).schedules = req.schedules.getD []
    ∧ (req.capacity = none → (newClassRow gen req s).capacity = 50)
    ∧ (req.status = none → (newClassRow gen req s).status = "active")
    ∧ (req.schedules = none → (newClassRow gen req s).schedules = [])
    ∧ (∀ v, req.capacity = some v → (newClassRow gen req s).capacity = v)
    ∧ (∀ v, req.status = some v → (newClassRow gen req s).status = v)
    ∧ (∀ v, req.schedules = some v → (newClassRow gen req s).schedules = v) := by
  have hcond : ¬ (req.subjectId = 0 ∨ req.teacherId = "" ∨ req.name = "") := by
    simp [h1, h2, h3]
  refine ⟨by simp [createClass, hcond], by simp [createClass, hcond],
    rfl, rfl, rfl, ?_, ?_, ?_, ?_, ?_, ?_⟩
  · intro hc
    simp [newClassRow, hc]
  · intro hc
    simp [newClassRow, hc]
  · intro hc
    simp [newClassRow, hc]
  · intro v hc
    simp [newClassRow, hc]
  · intro v hc
    simp [newClassRow, hc]
  · intro v hc
    simp [newClassRow, hc]

/-- A creation request supplying capacity, status and schedules. -/
def fullReq : CreateClassReq :=
  { subjectId := 2, teacherId := "t2", name := "Chemistry",
    description := some "desc", capacity := some 30,
    status := some "inactive", bannerUrl := none, bannerCldPubId := none,
    schedules := some ["Mon"] }

/-- Witness for C9: `demoReq` omits the three fields and gets the defaults
50 / `"active"` / `[]`; `fullReq` supplies 30 / `"inactive"` / `["Mon"]`
and they are stored unchanged. -/
theorem createClass_defaults_witness :
    ((createClass retryGen demoReq takenStore).1 = .ok 2
      ∧ (newClassRow retryGen demoReq takenStore).capacity = 50
      ∧ (newClassRow retryGen demoReq takenStore).status = "active"
      ∧ (newClassRow retryGen demoReq takenStore).schedules = [])
    ∧ ((newClassRow retryGen fullReq takenStore).capacity = 30
      ∧ (newClassRow retryGen fullReq takenStore).status = "inactive"
      ∧ (newClassRow retryGen fullReq takenStore).schedules = ["Mon"]) := by
  have hd := createClass_defaults retryGen demoReq takenStore
    (by decide) (by decide) (by decide)
  have hf := createClass_defaults retryGen fullReq takenStore
    (by decide) (by decide) (by decide)
  exact ⟨⟨hd.1, hd.2.2.2.2.2.1 rfl, hd.2.2.2.2.2.2.1 rfl,
      hd.2.2.2.2.2.2.2.1 rfl⟩,
    ⟨hf.2.2.2.2.2.2.2.2.1 30 rfl, hf.2.2.2.2.2.2.2.2.2.1 "inactive" rfl,
      hf.2.2.2.2.2.2.2.2.2.2 ["Mon"] rfl⟩⟩

/-! ## C10 — capacity-status categorization partition -/

/-- Threshold comparisons against the rational utilization reduce to integer
comparisons when the capacity is positive. -/
lemma utilization_ge_iff (it : CapacityItem) (h : 0 < it.capacity) (t : Nat) :
    ((t : ℚ) ≤ utilization it) ↔ t * it.capacity ≤ it.enrollmentCount * 100 := by
  have hb : (0 : ℚ) < (it.capacity : ℚ) := by exact_mod_cast h
  unfold utilization
  rw [div_mul_eq_mul_div, le_div_iff₀ hb]
  exact_mod_cast Iff.rfl

/-- The if/else-if chain puts every item in exactly one bucket, so the four
counters add up to the number of items. -/
lemma categoryCount_sum (l : List CapacityItem) :
    categoryCount l .available + categoryCount l .nearFull
      + categoryCount l .almostFull + categoryCount l .full = l.length := by
  induction l with
  | nil => rfl
  | cons hd tl ih =>
    unfold categoryCount at ih ⊢
    cases hcat : categorize hd <;>
      simp +decide [List.filter_cons, hcat] <;> omega

/-- C10: for positive capacities each class lands in exactly one of the four
buckets, delimited by utilization ≥ 100 (full), 90 ≤ utilization < 100
(almostFull), 70 ≤ utilization < 90 (nearFull) and utilization < 70
(available) — stated over the integer forms of the thresholds — and the four
bucket counts sum to the number of classes. -/
theorem capacityStatus_partition (l : List CapacityItem)
    (h : ∀ it ∈ l, 0 < it.capacity) :
    (∀ it ∈ l,
      (categorize it = .full ↔ it.capacity ≤ it.enrollmentCount)
      ∧ (categorize it = .almostFull ↔
          90 * it.capacity ≤ it.enrollmentCount * 100
            ∧ it.enrollmentCount < it.capacity)
      ∧ (categorize it = .nearFull ↔
          70 * it.capacity ≤ it.enrollmentCount * 100
            ∧ it.enrollmentCount * 100 < 90 * it.capacity)
      ∧ (categorize it = .available ↔
          it.enrollmentCount * 100 < 70 * it.capacity))
    ∧ categoryCount l .available + categoryCount l .nearFull
        + categoryCount l .almostFull + categoryCount l .full = l.length := by
  refine ⟨?_, categoryCount_sum l⟩
  intro it hit
  have hcap := h it hit
  have h100 := utilization_ge_iff it hcap 100
  have h90 := utilization_ge_iff it hcap 90
  have h70 := utilization_ge_iff it hcap 70
  by_cases b100 : 100 * it.capacity ≤ it.enrollmentCount * 100
  · have c100 : (100 : ℚ) ≤ utilization it := h100.mpr b100
    simp only [categorize, ge_iff_le, c100, if_true]
    refine ⟨?_, ?_, ?_, ?_⟩ <;> simp <;> omega
  · have c100 : ¬ (100 : ℚ) ≤ utilization it := fun hc => b100 (h100.mp hc)
    simp only [categorize, ge_iff_le, c100, if_false]
    by_cases b90 : 90 * it.capacity ≤ it.enrollmentCount * 100
    · have c90 : (90 : ℚ) ≤ utilization it := h90.mpr b90
      simp only [c90, if_true]
      refine ⟨?_, ?_, ?_, ?_⟩ <;> simp <;> omega
    · have c90 : ¬ (90 : ℚ) ≤ utilization it := fun hc => b90 (h90.mp hc)
      simp only [c90, if_false]
      by_cases b70 : 70 * it.capacity ≤ it.enrollmentCount * 100
      · have c70 : (70 : ℚ) ≤ utilization it := h70.mpr b70
        simp only [c70, if_true]
        refine ⟨?_, ?_, ?_, ?_⟩ <;> simp <;> omega
      · have c70 : ¬ (70 : ℚ) ≤ utilization it := fun hc => b70 (h70.mp hc)
        simp only [c70, if_false]
        refine ⟨?_, ?_, ?_, ?_⟩ <;> simp <;> omega

/-- One class per bucket: 5/5 full, 9/10 almostFull, 7/10 nearFull, 0/10
available. -/
def demoItems : List CapacityItem := [⟨5, 5⟩, ⟨9, 10⟩, ⟨7, 10⟩, ⟨0, 10⟩]

/-- Witness for C10 at `demoItems`, which populates all four buckets. -/
theorem capacityStatus_partition_witness :
    (∀ it ∈ demoItems,
      (categorize it = .full ↔ it.capacity ≤ it.enrollmentCount)
      ∧ (categorize it = .almostFull ↔
          90 * it.capacity ≤ it.enrollmentCount * 100
            ∧ it.enrollmentCount < it.capacity)
      ∧ (categorize it = .nearFull ↔
          70 * it.capacity ≤ it.enrollmentCount * 100
            ∧ it.enrollmentCount * 100 < 90 * it.capacity)
      ∧ (categorize it = .available ↔
          it.enrollmentCount * 100 < 70 * it.capacity))
    ∧ categoryCount demoItems .available + categoryCount demoItems .nearFull
        + categoryCount demoItems .almostFull + categoryCount demoItems .full
      = demoItems.length :=
  capacityStatus_partition demoItems (by decide)

end Classroom
